import Mathlib

/-! # Descriptor dispatch and positional I/O emulation (`folly/portability/Unistd.cpp`)

A shallow embedding of the `_WIN32` part of `Unistd.cpp`: `seek`, `wrapPositional`,
`lseek`, `lseek64`, `pread`, `pread64`, `pwrite`, `read` and `write`.

* Every function of the source becomes a function from a `World` (the thread's
  `errno` together with the rest of the native state) to a return value and the
  next `World`.
* The native primitives called by the source (`_lseek`, `_read`, `recv`, ...) and
  the header constants it compares against are not part of the translation unit;
  they are the fields of `Platform`, and the theorems about return values, `errno`
  and the native calls made quantify over all platforms.
* What a file position or a file's contents are is fixed by the platform, so the
  theorems about positions and transferred bytes are stated on `simFS`, a
  simulation of the C runtime's descriptors; `scripted` is a platform with canned
  answers that supplies concrete inputs.
* C integers are `Int`/`Nat`.  `off_t`, `off64_t`, `int` and `ssize_t` values are
  passed through unchanged by the source (the casts `(int)f(...)`, `int → ssize_t`
  and `off64_t → int64_t` preserve the value), so no reduction is applied to them.
  The one narrowing cast, `(unsigned int)count` on a `size_t`, is `count % 2^32`.
-/

namespace Unistd

/-- Buffer arguments (`void*`, `const void*`) are addresses. -/
abbrev Ptr := Nat

/-- Caller-visible state: the thread's `errno` and the remaining native state. -/
structure World (ω : Type) where
  errno : Int
  os : ω
deriving DecidableEq, Repr

/-- Everything `Unistd.cpp` takes from platform headers and libraries: the header
constants it names and the native primitives it calls.  A primitive maps its
arguments and the current world to its return value and the next world, so it may
change `errno` and any other native state.  `WSAGetLastError` and `GetLastError`
only read the thread's last-error values.  `GetNamedPipeHandleState` yields
`none` when the call returns `FALSE` and `some state` (the value stored through
its `lpState` argument) otherwise. -/
structure Platform (ω : Type) where
  SEEK_SET : Int
  SEEK_CUR : Int
  EAGAIN : Int
  ENOSPC : Int
  WSAEWOULDBLOCK : Int
  ERROR_NO_DATA : Int
  INVALID_SOCKET : Nat
  FILE_TYPE_PIPE : Nat
  PIPE_NOWAIT : Nat
  _lseek : Int → Int → Int → World ω → Int × World ω
  _lseeki64 : Int → Int → Int → World ω → Int × World ω
  _read : Int → Ptr → Nat → World ω → Int × World ω
  _write : Int → Ptr → Nat → World ω → Int × World ω
  is_fh_socket : Int → World ω → Bool × World ω
  _get_osfhandle : Int → World ω → Int × World ω
  recv : Int → Ptr → Nat → Int → World ω → Int × World ω
  send : Int → Ptr → Nat → Int → World ω → Int × World ω
  WSAGetLastError : World ω → Int
  GetLastError : World ω → Int
  GetFileType : Int → World ω → Nat × World ω
  GetNamedPipeHandleState : Int → World ω → Option Nat × World ω

variable {ω : Type}

/-- Source lines 174-176: `off_t lseek(int fh, off_t off, int orig)`. -/
def lseek (P : Platform ω) (fh off orig : Int) (w : World ω) : Int × World ω :=
  P._lseek fh off orig w

/-- Source lines 178-180: `off64_t lseek64(int fh, off64_t off, int orig)`. -/
def lseek64 (P : Platform ω) (fh off orig : Int) (w : World ω) : Int × World ω :=
  P._lseeki64 fh off orig w

/-- Source lines 46-55: `template <bool is64Bit, class Offset> seek`. -/
def seek (P : Platform ω) (is64Bit : Bool) (fd offset whence : Int) (w : World ω) :
    Int × World ω :=
  if is64Bit then lseek64 P fd offset whence w else lseek P fd offset whence w

/-- Source lines 58-83: `wrapPositional`.  The argument pack `args...` is
`(buf, (unsigned int)count)` in each of the three instantiations, so `f` takes the
descriptor, a buffer and an `unsigned int`. -/
def wrapPositional (P : Platform ω) (is64Bit : Bool)
    (f : Int → Ptr → Nat → World ω → Int × World ω)
    (fd offset : Int) (buf : Ptr) (n : Nat) (w : World ω) : Int × World ω :=
  match seek P is64Bit fd offset P.SEEK_CUR w with
  | (origLoc, w1) =>
    if origLoc = -1 then (-1, w1)
    else
      match seek P is64Bit fd offset P.SEEK_SET w1 with
      | (moved, w2) =>
        if moved = -1 then (-1, w2)
        else
          match f fd buf n w2 with
          | (res, w3) =>
            let curErrNo := w3.errno
            match seek P is64Bit fd origLoc P.SEEK_SET w3 with
            | (afterOperation, w4) =>
              if afterOperation = -1 then
                if res = -1 then (-1, { w4 with errno := curErrNo })
                else (-1, w4)
              else (res, { w4 with errno := curErrNo })

/-- Source lines 192-195: `pread`. -/
def pread (P : Platform ω) (fd : Int) (buf : Ptr) (count : Nat) (offset : Int)
    (w : World ω) : Int × World ω :=
  wrapPositional P false P._read fd offset buf (count % 2 ^ 32) w

/-- Source lines 197-200: `pread64`. -/
def pread64 (P : Platform ω) (fd : Int) (buf : Ptr) (count : Nat) (offset : Int)
    (w : World ω) : Int × World ω :=
  wrapPositional P true P._read fd offset buf (count % 2 ^ 32) w

/-- Source lines 202-205: `pwrite`. -/
def pwrite (P : Platform ω) (fd : Int) (buf : Ptr) (count : Nat) (offset : Int)
    (w : World ω) : Int × World ω :=
  wrapPositional P false P._write fd offset buf (count % 2 ^ 32) w

/-- The cast `(SOCKET)_get_osfhandle(fh)`: `intptr_t` to the unsigned `UINT_PTR`
of a 64-bit build. -/
def toSOCKET (h : Int) : Nat := (h % 2 ^ 64).toNat

/-- Source lines 218-225: the statements of `read` after the socket branch. -/
def readFileTail (P : Platform ω) (fh : Int) (buf : Ptr) (count : Nat) (w : World ω) :
    Int × World ω :=
  match P._read fh buf (count % 2 ^ 32) w with
  | (r, w1) =>
    if r = -1 ∧ P.GetLastError w1 = P.ERROR_NO_DATA then (r, { w1 with errno := P.EAGAIN })
    else (r, w1)

/-- Source lines 207-226: `read`. -/
def read (P : Platform ω) (fh : Int) (buf : Ptr) (count : Nat) (w : World ω) :
    Int × World ω :=
  match P.is_fh_socket fh w with
  | (true, w1) =>
    match P._get_osfhandle fh w1 with
    | (s, w2) =>
      if toSOCKET s ≠ P.INVALID_SOCKET then
        match P.recv fh buf count 0 w2 with
        | (r, w3) =>
          if r = -1 ∧ P.WSAGetLastError w3 = P.WSAEWOULDBLOCK then
            (r, { w3 with errno := P.EAGAIN })
          else (r, w3)
      else readFileTail P fh buf count w2
  | (false, w1) => readFileTail P fh buf count w1

/-- Source lines 311-329: the statements of `write` after the socket branch. -/
def writeFileTail (P : Platform ω) (fh : Int) (buf : Ptr) (count : Nat) (w : World ω) :
    Int × World ω :=
  match P._write fh buf (count % 2 ^ 32) w with
  | (r, w1) =>
    if (0 < r ∧ r.toNat ≠ count) ∨ (r = -1 ∧ w1.errno = P.ENOSPC) then
      match P._get_osfhandle fh w1 with
      | (h, w2) =>
        match P.GetFileType h w2 with
        | (ty, w3) =>
          if ty = P.FILE_TYPE_PIPE then
            match P.GetNamedPipeHandleState h w3 with
            | (some state, w4) =>
              if state &&& P.PIPE_NOWAIT = P.PIPE_NOWAIT then
                (-1, { w4 with errno := P.EAGAIN })
              else (r, w4)
            | (none, w4) => (r, w4)
          else (r, w3)
    else (r, w1)

/-- Source lines 300-330: `write`. -/
def write (P : Platform ω) (fh : Int) (buf : Ptr) (count : Nat) (w : World ω) :
    Int × World ω :=
  match P.is_fh_socket fh w with
  | (true, w1) =>
    match P._get_osfhandle fh w1 with
    | (s, w2) =>
      if toSOCKET s ≠ P.INVALID_SOCKET then
        match P.send fh buf count 0 w2 with
        | (r, w3) =>
          if r = -1 ∧ P.WSAGetLastError w3 = P.WSAEWOULDBLOCK then
            (r, { w3 with errno := P.EAGAIN })
          else (r, w3)
      else writeFileTail P fh buf count w2
  | (false, w1) => writeFileTail P fh buf count w1

/-! ## The three positional entry points -/

/-- The three instantiations of `wrapPositional` (source lines 192-205). -/
inductive PosEntry where
  | pread
  | pread64
  | pwrite
deriving DecidableEq, Repr

/-- The entry point itself. -/
def PosEntry.run (P : Platform ω) :
    PosEntry → Int → Ptr → Nat → Int → World ω → Int × World ω
  | .pread => Unistd.pread P
  | .pread64 => Unistd.pread64 P
  | .pwrite => Unistd.pwrite P

/-- The template argument `is64Bit` the entry point passes. -/
def PosEntry.is64Bit : PosEntry → Bool
  | .pread => false
  | .pread64 => true
  | .pwrite => false

/-- The native transfer primitive the entry point passes as `f`. -/
def PosEntry.xfer (P : Platform ω) :
    PosEntry → Int → Ptr → Nat → World ω → Int × World ω
  | .pread => P._read
  | .pread64 => P._read
  | .pwrite => P._write

/-! ## Recording native calls

`logged P` behaves as `P` and appends every state-changing primitive it is asked
to run, with its arguments, to a log kept next to `P`'s own state. -/

/-- One invocation of a native primitive, with the arguments it received. -/
inductive Call where
  | _lseek (fh off orig : Int)
  | _lseeki64 (fh off orig : Int)
  | _read (fh : Int) (buf : Ptr) (n : Nat)
  | _write (fh : Int) (buf : Ptr) (n : Nat)
  | is_fh_socket (fh : Int)
  | _get_osfhandle (fh : Int)
  | recv (fh : Int) (buf : Ptr) (len : Nat) (flags : Int)
  | send (fh : Int) (buf : Ptr) (len : Nat) (flags : Int)
  | GetFileType (h : Int)
  | GetNamedPipeHandleState (h : Int)
deriving DecidableEq, Repr

/-- The call is to the native file primitive `_read` or `_write`. -/
def Call.isFileXfer : Call → Bool
  | ._read _ _ _ => true
  | ._write _ _ _ => true
  | _ => false

/-- The call is to the native socket primitive `recv` or `send`. -/
def Call.isSocketXfer : Call → Bool
  | .recv _ _ _ _ => true
  | .send _ _ _ _ => true
  | _ => false

/-- The `_read`/`_write` call an entry point makes for a buffer and a count. -/
def PosEntry.xferCall : PosEntry → Int → Ptr → Nat → Call
  | .pread => Call._read
  | .pread64 => Call._read
  | .pwrite => Call._write

/-- A logged world seen by the underlying platform. -/
def Logged.strip (w : World (ω × List Call)) : World ω := ⟨w.errno, w.os.1⟩

/-- A world of the underlying platform with an empty log. -/
def Logged.start (w : World ω) : World (ω × List Call) := ⟨w.errno, (w.os, [])⟩

/-- The calls recorded so far. -/
def Logged.calls (w : World (ω × List Call)) : List Call := w.os.2

/-- Run a primitive of the underlying platform and record the call. -/
def Logged.lift {α : Type} (c : Call) (op : World ω → α × World ω)
    (w : World (ω × List Call)) : α × World (ω × List Call) :=
  match op (Logged.strip w) with
  | (a, w1) => (a, ⟨w1.errno, (w1.os, w.os.2 ++ [c])⟩)

/-- The platform `P` with call recording. -/
def logged (P : Platform ω) : Platform (ω × List Call) where
  SEEK_SET := P.SEEK_SET
  SEEK_CUR := P.SEEK_CUR
  EAGAIN := P.EAGAIN
  ENOSPC := P.ENOSPC
  WSAEWOULDBLOCK := P.WSAEWOULDBLOCK
  ERROR_NO_DATA := P.ERROR_NO_DATA
  INVALID_SOCKET := P.INVALID_SOCKET
  FILE_TYPE_PIPE := P.FILE_TYPE_PIPE
  PIPE_NOWAIT := P.PIPE_NOWAIT
  _lseek := fun fh off orig => Logged.lift (Call._lseek fh off orig) (P._lseek fh off orig)
  _lseeki64 := fun fh off orig =>
    Logged.lift (Call._lseeki64 fh off orig) (P._lseeki64 fh off orig)
  _read := fun fh buf n => Logged.lift (Call._read fh buf n) (P._read fh buf n)
  _write := fun fh buf n => Logged.lift (Call._write fh buf n) (P._write fh buf n)
  is_fh_socket := fun fh => Logged.lift (Call.is_fh_socket fh) (P.is_fh_socket fh)
  _get_osfhandle := fun fh => Logged.lift (Call._get_osfhandle fh) (P._get_osfhandle fh)
  recv := fun fh buf len flags =>
    Logged.lift (Call.recv fh buf len flags) (P.recv fh buf len flags)
  send := fun fh buf len flags =>
    Logged.lift (Call.send fh buf len flags) (P.send fh buf len flags)
  WSAGetLastError := fun w => P.WSAGetLastError (Logged.strip w)
  GetLastError := fun w => P.GetLastError (Logged.strip w)
  GetFileType := fun h => Logged.lift (Call.GetFileType h) (P.GetFileType h)
  GetNamedPipeHandleState := fun h =>
    Logged.lift (Call.GetNamedPipeHandleState h) (P.GetNamedPipeHandleState h)

/-! ## Header constants of the Windows SDK and the UCRT

Used by the two concrete platforms below; the general theorems do not depend on
these values. -/

namespace Win

/-- Value of `SEEK_SET` in `stdio.h`. -/
def SEEK_SET : Int := 0
/-- Value of `SEEK_CUR` in `stdio.h`. -/
def SEEK_CUR : Int := 1
/-- Value of `SEEK_END` in `stdio.h`. -/
def SEEK_END : Int := 2
/-- Value of `EBADF` in `errno.h`. -/
def EBADF : Int := 9
/-- Value of `EAGAIN` in `errno.h`. -/
def EAGAIN : Int := 11
/-- Value of `EACCES` in `errno.h`. -/
def EACCES : Int := 13
/-- Value of `EINVAL` in `errno.h`. -/
def EINVAL : Int := 22
/-- Value of `ENOSPC` in `errno.h`. -/
def ENOSPC : Int := 28
/-- Value of `WSAEWOULDBLOCK` in `winerror.h`. -/
def WSAEWOULDBLOCK : Int := 10035
/-- Value of `WSAENOTSOCK` in `winerror.h`. -/
def WSAENOTSOCK : Int := 10038
/-- Value of `ERROR_NO_DATA` in `winerror.h`. -/
def ERROR_NO_DATA : Int := 232
/-- Value of `INVALID_SOCKET`, `(SOCKET)(~0)`, in a 64-bit build. -/
def INVALID_SOCKET : Nat := 2 ^ 64 - 1
/-- Value of `FILE_TYPE_DISK` in `winbase.h`. -/
def FILE_TYPE_DISK : Nat := 1
/-- Value of `FILE_TYPE_PIPE` in `winbase.h`. -/
def FILE_TYPE_PIPE : Nat := 3
/-- Value of `PIPE_NOWAIT` in `winbase.h`. -/
def PIPE_NOWAIT : Nat := 1

end Win

/-! ## A scripted platform

Every primitive answers from a fixed script; successive native seeks take their
answers from a list.  It provides concrete inputs in which individual native
calls fail or succeed independently of each other. -/

/-- The answers of the scripted platform. -/
structure Script where
  /-- Return value of the successive native seeks, each with the value it stores
  in `errno`, if it stores one. -/
  seeks : List (Int × Option Int)
  /-- Return value of `_read`/`_write`, the `errno` it sets when that value is
  `-1`, and the thread's last error afterwards. -/
  xfer : Int × Int × Int
  /-- Answer of `is_fh_socket`. -/
  isSocket : Bool
  /-- Answer of `_get_osfhandle`. -/
  osfhandle : Int
  /-- Return value of `recv`/`send` and the WSA last error afterwards. -/
  net : Int × Int
  /-- Answer of `GetFileType`. -/
  fileType : Nat
  /-- Answer of `GetNamedPipeHandleState`. -/
  pipeState : Option Nat
deriving DecidableEq, Repr

/-- Native state of the scripted platform. -/
structure ScriptOS where
  /-- Number of native seeks made so far. -/
  seekCalls : Nat
  /-- The thread's last error (`GetLastError`). -/
  lastError : Int
  /-- The thread's WSA last error (`WSAGetLastError`). -/
  wsaError : Int
deriving DecidableEq, Repr

/-- The next scripted seek. -/
def Script.seek (s : Script) (w : World ScriptOS) : Int × World ScriptOS :=
  match s.seeks.get? w.os.seekCalls with
  | some (r, e) => (r, ⟨e.getD w.errno, { w.os with seekCalls := w.os.seekCalls + 1 }⟩)
  | none => (-1, ⟨Win.EBADF, { w.os with seekCalls := w.os.seekCalls + 1 }⟩)

/-- The scripted `_read`/`_write`. -/
def Script.transfer (s : Script) (w : World ScriptOS) : Int × World ScriptOS :=
  (s.xfer.1, ⟨if s.xfer.1 = -1 then s.xfer.2.1 else w.errno,
    { w.os with lastError := s.xfer.2.2 }⟩)

/-- The scripted `recv`/`send`. -/
def Script.network (s : Script) (w : World ScriptOS) : Int × World ScriptOS :=
  (s.net.1, { w with os := { w.os with wsaError := s.net.2 } })

/-- The platform that answers from the script `s`. -/
def scripted (s : Script) : Platform ScriptOS where
  SEEK_SET := Win.SEEK_SET
  SEEK_CUR := Win.SEEK_CUR
  EAGAIN := Win.EAGAIN
  ENOSPC := Win.ENOSPC
  WSAEWOULDBLOCK := Win.WSAEWOULDBLOCK
  ERROR_NO_DATA := Win.ERROR_NO_DATA
  INVALID_SOCKET := Win.INVALID_SOCKET
  FILE_TYPE_PIPE := Win.FILE_TYPE_PIPE
  PIPE_NOWAIT := Win.PIPE_NOWAIT
  _lseek := fun _ _ _ => s.seek
  _lseeki64 := fun _ _ _ => s.seek
  _read := fun _ _ _ => s.transfer
  _write := fun _ _ _ => s.transfer
  is_fh_socket := fun _ w => (s.isSocket, w)
  _get_osfhandle := fun _ w => (s.osfhandle, w)
  recv := fun _ _ _ _ => s.network
  send := fun _ _ _ _ => s.network
  WSAGetLastError := fun w => w.os.wsaError
  GetLastError := fun w => w.os.lastError
  GetFileType := fun _ w => (s.fileType, w)
  GetNamedPipeHandleState := fun _ w => (s.pipeState, w)

/-- Initial world of the scripted platform: `errno` 0, no seek made, no error. -/
def ScriptOS.init : World ScriptOS := ⟨0, ⟨0, 0, 0⟩⟩

/-! ## A simulated file system

Open file-kind descriptors carry a position and the file's bytes; the native seek
and transfer primitives act on them as the C runtime documents: a seek moves the
position and returns it, or returns `-1` and leaves it alone; `_read` and `_write`
transfer at the position and advance it. -/

/-- An open file: current position and contents. -/
structure SimFile where
  pos : Int
  data : List Nat
deriving DecidableEq, Repr

/-- Native state of the simulation. -/
structure SimOS where
  /-- The open file-kind descriptors. -/
  files : Int → Option SimFile
  /-- The descriptors the kind resolver reports as sockets. -/
  sockets : Int → Bool
  /-- Process memory, byte by address. -/
  mem : Ptr → Nat
  /-- The thread's last error. -/
  lastError : Int
  /-- The thread's WSA last error. -/
  wsaError : Int

/-- Store a file at a descriptor. -/
def SimOS.setFile (o : SimOS) (fh : Int) (f : SimFile) : SimOS :=
  { o with files := fun k => if k = fh then some f else o.files k }

/-- Simulated `_lseek`/`_lseeki64`. -/
def simSeek (fh off orig : Int) (w : World SimOS) : Int × World SimOS :=
  match w.os.files fh with
  | none => (-1, { w with errno := Win.EBADF })
  | some f =>
    let base : Option Int :=
      if orig = Win.SEEK_SET then some 0
      else if orig = Win.SEEK_CUR then some f.pos
      else if orig = Win.SEEK_END then some (f.data.length : Int)
      else none
    match base with
    | none => (-1, { w with errno := Win.EINVAL })
    | some b =>
      if b + off < 0 then (-1, { w with errno := Win.EINVAL })
      else (b + off, { w with os := w.os.setFile fh { f with pos := b + off } })

/-- Simulated `_read`: copies the bytes from the position on, at most `n`, to
`buf`, advances the position by their number and returns it. -/
def simRead (fh : Int) (buf : Ptr) (n : Nat) (w : World SimOS) : Int × World SimOS :=
  match w.os.files fh with
  | none => (-1, { w with errno := Win.EBADF })
  | some f =>
    let bytes := (f.data.drop f.pos.toNat).take n
    let o := w.os.setFile fh { f with pos := f.pos + bytes.length }
    ((bytes.length : Int), { w with os := { o with mem := fun a =>
      if buf ≤ a ∧ a < buf + bytes.length then bytes.getD (a - buf) 0 else w.os.mem a } })

/-- Simulated `_write`: stores the `n` bytes at `buf` into the file at the
position (zero-filling a gap past the end), advances the position by `n` and
returns `n`. -/
def simWrite (fh : Int) (buf : Ptr) (n : Nat) (w : World SimOS) : Int × World SimOS :=
  match w.os.files fh with
  | none => (-1, { w with errno := Win.EBADF })
  | some f =>
    let p := f.pos.toNat
    let bytes := (List.range n).map fun i => w.os.mem (buf + i)
    let padded := f.data ++ List.replicate (p - f.data.length) 0
    let g : SimFile := ⟨f.pos + n, padded.take p ++ bytes ++ padded.drop (p + n)⟩
    ((n : Int), { w with os := w.os.setFile fh g })

/-- The simulated platform.  Its sockets are never connected: `recv` and `send`
fail with `WSAENOTSOCK`. -/
def simFS : Platform SimOS where
  SEEK_SET := Win.SEEK_SET
  SEEK_CUR := Win.SEEK_CUR
  EAGAIN := Win.EAGAIN
  ENOSPC := Win.ENOSPC
  WSAEWOULDBLOCK := Win.WSAEWOULDBLOCK
  ERROR_NO_DATA := Win.ERROR_NO_DATA
  INVALID_SOCKET := Win.INVALID_SOCKET
  FILE_TYPE_PIPE := Win.FILE_TYPE_PIPE
  PIPE_NOWAIT := Win.PIPE_NOWAIT
  _lseek := simSeek
  _lseeki64 := simSeek
  _read := simRead
  _write := simWrite
  is_fh_socket := fun fh w => (w.os.sockets fh, w)
  _get_osfhandle := fun fh w =>
    match w.os.files fh with
    | none => (-1, { w with errno := Win.EBADF })
    | some _ => (fh, w)
  recv := fun _ _ _ _ w => (-1, { w with os := { w.os with wsaError := Win.WSAENOTSOCK } })
  send := fun _ _ _ _ w => (-1, { w with os := { w.os with wsaError := Win.WSAENOTSOCK } })
  WSAGetLastError := fun w => w.os.wsaError
  GetLastError := fun w => w.os.lastError
  GetFileType := fun _ w => (Win.FILE_TYPE_DISK, w)
  GetNamedPipeHandleState := fun _ w => (none, w)

/-- The descriptor's position as a caller reads it: the return value of a seek of
0 relative to the current position (`lseek(fd, 0, SEEK_CUR)`). -/
def position (P : Platform ω) (fd : Int) (w : World ω) : Int :=
  (lseek P fd 0 P.SEEK_CUR w).1

/-- A simulated world with one open file-kind descriptor, 3, positioned at 100 in
a file holding the 128 bytes `0, 1, ..., 127`; memory is zeroed and `errno` is 0. -/
def simWorld : World SimOS :=
  ⟨0, { files := fun k => if k = 3 then some ⟨100, List.range 128⟩ else none,
        sockets := fun _ => false, mem := fun _ => 0, lastError := 0, wsaError := 0 }⟩

/-- Script for a positional call whose two first seeks succeed, whose native
transfer fails with `EACCES`, and whose restoring seek fails with `EBADF`. -/
def scriptXferAndRestoreFail : Script :=
  ⟨[(105, none), (5, none), (-1, some Win.EBADF)], (-1, Win.EACCES, 0), false, 0, (0, 0), 0,
    none⟩

/-- Script for a positional call whose two first seeks succeed, whose native
transfer moves all 10 bytes, and whose restoring seek fails with `EBADF`. -/
def scriptRestoreFail : Script :=
  ⟨[(105, none), (5, none), (-1, some Win.EBADF)], (10, 0, 0), false, 0, (0, 0), 0, none⟩

/-- Script for a positional call whose three seeks succeed, the last one
overwriting `errno` with `EINVAL`, and whose native transfer fails with `EACCES`. -/
def scriptXferFail : Script :=
  ⟨[(105, none), (5, none), (105, some Win.EINVAL)], (-1, Win.EACCES, 0), false, 0, (0, 0), 0,
    none⟩

/-- Script for a socket-kind descriptor with a valid handle whose `recv`/`send`
returns -1 with the WSA last error `WSAEWOULDBLOCK`. -/
def scriptWouldBlock : Script :=
  ⟨[], (0, 0, 0), true, 7, (-1, Win.WSAEWOULDBLOCK), 0, none⟩

/-- Script for a socket-kind descriptor whose `_get_osfhandle` answer is -1, which
the cast to `SOCKET` turns into `INVALID_SOCKET`; `_read`/`_write` return 4. -/
def scriptInvalidSocket : Script :=
  ⟨[], (4, 0, 0), true, -1, (0, 0), Win.FILE_TYPE_DISK, none⟩

/-- The call is a native transfer, by the file or by the socket primitive. -/
def Call.isXfer (c : Call) : Bool := c.isFileXfer || c.isSocketXfer

/-- A world of the underlying platform together with a log. -/
def Logged.mk (w : World ω) (l : List Call) : World (ω × List Call) := ⟨w.errno, (w.os, l)⟩

/-- The native seek call `seek<is64Bit>` makes. -/
def seekCall (is64Bit : Bool) (fd offset whence : Int) : Call :=
  if is64Bit then Call._lseeki64 fd offset whence else Call._lseek fd offset whence

/-- Script for a positional call whose seeks succeed and whose transfer returns 0. -/
def scriptAllSucceed : Script :=
  ⟨[(105, none), (5, none), (105, none)], (0, 0, 0), false, 7, (0, 0), Win.FILE_TYPE_DISK,
    none⟩

/-! ## Theorems -/

/-- An entry point is `wrapPositional` at its seek width and transfer primitive,
with the count narrowed to `unsigned int`. -/
theorem PosEntry.run_eq (P : Platform ω) (e : PosEntry) (fd : Int) (buf : Ptr)
    (count : Nat) (offset : Int) (w : World ω) :
    e.run P fd buf count offset w =
      wrapPositional P e.is64Bit (e.xfer P) fd offset buf (count % 2 ^ 32) w := by
  cases e <;> rfl

/-- The result of `wrapPositional` once the two first seeks have succeeded. -/
theorem wrapPositional_reached (P : Platform ω) (is64Bit : Bool)
    (f : Int → Ptr → Nat → World ω → Int × World ω) (fd offset : Int) (buf : Ptr) (n : Nat)
    (w w1 w2 w3 w4 : World ω) (origLoc moved res after : Int)
    (h1 : seek P is64Bit fd offset P.SEEK_CUR w = (origLoc, w1)) (ho : origLoc ≠ -1)
    (h2 : seek P is64Bit fd offset P.SEEK_SET w1 = (moved, w2)) (hm : moved ≠ -1)
    (h3 : f fd buf n w2 = (res, w3))
    (h4 : seek P is64Bit fd origLoc P.SEEK_SET w3 = (after, w4)) :
    wrapPositional P is64Bit f fd offset buf n w =
      if after = -1 then (if res = -1 then (-1, { w4 with errno := w3.errno }) else (-1, w4))
      else (res, { w4 with errno := w3.errno }) := by
  simp only [wrapPositional, h1, h2, h3, h4, if_neg ho, if_neg hm]

/-- C4. Faithful surfacing: when the first seek (the position query the code
makes), the seek to the target offset and the restoring seek all return something
other than -1, `pread`/`pread64`/`pwrite` return the native transfer's value, and
the world on return is the one left by the restoring seek with `errno` put back
to its value right after the native transfer. -/
theorem positional_surfaces_operation (P : Platform ω) (e : PosEntry) (fd : Int)
    (buf : Ptr) (count : Nat) (offset : Int) (w w1 w2 w3 w4 : World ω)
    (origLoc moved res after : Int)
    (h1 : seek P e.is64Bit fd offset P.SEEK_CUR w = (origLoc, w1)) (ho : origLoc ≠ -1)
    (h2 : seek P e.is64Bit fd offset P.SEEK_SET w1 = (moved, w2)) (hm : moved ≠ -1)
    (h3 : e.xfer P fd buf (count % 2 ^ 32) w2 = (res, w3))
    (h4 : seek P e.is64Bit fd origLoc P.SEEK_SET w3 = (after, w4)) (ha : after ≠ -1) :
    e.run P fd buf count offset w = (res, { w4 with errno := w3.errno }) ∧
      (e.run P fd buf count offset w).2.errno = w3.errno := by
  rw [PosEntry.run_eq, wrapPositional_reached P _ _ fd offset buf _ w w1 w2 w3 w4
    origLoc moved res after h1 ho h2 hm h3 h4, if_neg ha]
  exact ⟨rfl, rfl⟩

/-- C4 at a concrete input: on the scripted platform the three seeks succeed,
`_read` fails with `EACCES` and the restoring seek overwrites `errno` with `EINVAL`;
`pread` returns that -1 with `errno = EACCES`. -/
theorem positional_surfaces_operation_witness :
    pread (scripted scriptXferFail) 3 1000 10 5 ScriptOS.init
        = (-1, { (⟨Win.EINVAL, ⟨3, 0, 0⟩⟩ : World ScriptOS) with errno := Win.EACCES }) ∧
      (pread (scripted scriptXferFail) 3 1000 10 5 ScriptOS.init).2.errno = Win.EACCES :=
  positional_surfaces_operation (scripted scriptXferFail) PosEntry.pread 3 1000 10 5
    ScriptOS.init ⟨0, ⟨1, 0, 0⟩⟩ ⟨0, ⟨2, 0, 0⟩⟩ ⟨Win.EACCES, ⟨2, 0, 0⟩⟩ ⟨Win.EINVAL, ⟨3, 0, 0⟩⟩
    105 5 (-1) 105 (by decide) (by decide) (by decide) (by decide) (by decide) (by decide)
    (by decide)

/-- C3. Restore priority: when the restoring seek (reached after the two first
seeks succeeded) returns -1, `pread`/`pread64`/`pwrite` return -1 whatever the
native transfer returned. -/
theorem restore_failure_returns_minus_one (P : Platform ω) (e : PosEntry) (fd : Int)
    (buf : Ptr) (count : Nat) (offset : Int) (w w1 w2 w3 w4 : World ω)
    (origLoc moved res after : Int)
    (h1 : seek P e.is64Bit fd offset P.SEEK_CUR w = (origLoc, w1)) (ho : origLoc ≠ -1)
    (h2 : seek P e.is64Bit fd offset P.SEEK_SET w1 = (moved, w2)) (hm : moved ≠ -1)
    (h3 : e.xfer P fd buf (count % 2 ^ 32) w2 = (res, w3))
    (h4 : seek P e.is64Bit fd origLoc P.SEEK_SET w3 = (after, w4)) (ha : after = -1) :
    (e.run P fd buf count offset w).1 = -1 := by
  rw [PosEntry.run_eq, wrapPositional_reached P _ _ fd offset buf _ w w1 w2 w3 w4
    origLoc moved res after h1 ho h2 hm h3 h4, if_pos ha]
  split <;> rfl

/-- C3 at a concrete input: `_write` moves all 10 requested bytes, the restoring
seek fails, and `pwrite` returns -1. -/
theorem restore_failure_returns_minus_one_witness :
    (scripted scriptRestoreFail)._write 3 1000 (10 % 2 ^ 32) ⟨0, ⟨2, 0, 0⟩⟩
        = (10, ⟨0, ⟨2, 0, 0⟩⟩) ∧
      (pwrite (scripted scriptRestoreFail) 3 1000 10 5 ScriptOS.init).1 = -1 :=
  ⟨by decide,
    restore_failure_returns_minus_one (scripted scriptRestoreFail) PosEntry.pwrite 3 1000 10
      5 ScriptOS.init ⟨0, ⟨1, 0, 0⟩⟩ ⟨0, ⟨2, 0, 0⟩⟩ ⟨0, ⟨2, 0, 0⟩⟩ ⟨Win.EBADF, ⟨3, 0, 0⟩⟩
      105 5 10 (-1) (by decide) (by decide) (by decide) (by decide) (by decide) (by decide)
      (by decide)⟩

/-- C2, as stated, fails: on the scripted platform the two first seeks of
`pread(3, buf, 10, 5)` succeed, `_read` returns -1 leaving `errno = EACCES`, the
restoring seek returns -1 leaving `errno = EBADF`, and `errno` on return is `EACCES`,
the transfer's error and not the restoring seek's. -/
theorem restore_failure_errno_counterexample :
    seek (scripted scriptXferAndRestoreFail) false 3 5 Win.SEEK_CUR ScriptOS.init
        = (105, ⟨0, ⟨1, 0, 0⟩⟩) ∧
      seek (scripted scriptXferAndRestoreFail) false 3 5 Win.SEEK_SET ⟨0, ⟨1, 0, 0⟩⟩
        = (5, ⟨0, ⟨2, 0, 0⟩⟩) ∧
      (scripted scriptXferAndRestoreFail)._read 3 1000 (10 % 2 ^ 32) ⟨0, ⟨2, 0, 0⟩⟩
        = (-1, ⟨Win.EACCES, ⟨2, 0, 0⟩⟩) ∧
      seek (scripted scriptXferAndRestoreFail) false 3 105 Win.SEEK_SET ⟨Win.EACCES, ⟨2, 0, 0⟩⟩
        = (-1, ⟨Win.EBADF, ⟨3, 0, 0⟩⟩) ∧
      pread (scripted scriptXferAndRestoreFail) 3 1000 10 5 ScriptOS.init
        = (-1, ⟨Win.EACCES, ⟨3, 0, 0⟩⟩) ∧
      (pread (scripted scriptXferAndRestoreFail) 3 1000 10 5 ScriptOS.init).2.errno
        ≠ Win.EBADF := by
  decide

/-- C2, amended. When the restoring seek (reached after the two first seeks
succeeded) returns -1: if the native transfer did not return -1, the world on
return, `errno` included, is the one left by the failed restoring seek; if the
native transfer returned -1, `errno` on return is put back to the value the
native transfer left. -/
theorem restore_failure_errno (P : Platform ω) (e : PosEntry) (fd : Int)
    (buf : Ptr) (count : Nat) (offset : Int) (w w1 w2 w3 w4 : World ω)
    (origLoc moved res after : Int)
    (h1 : seek P e.is64Bit fd offset P.SEEK_CUR w = (origLoc, w1)) (ho : origLoc ≠ -1)
    (h2 : seek P e.is64Bit fd offset P.SEEK_SET w1 = (moved, w2)) (hm : moved ≠ -1)
    (h3 : e.xfer P fd buf (count % 2 ^ 32) w2 = (res, w3))
    (h4 : seek P e.is64Bit fd origLoc P.SEEK_SET w3 = (after, w4)) (ha : after = -1) :
    (res ≠ -1 → e.run P fd buf count offset w = (-1, w4)) ∧
      (res = -1 → e.run P fd buf count offset w = (-1, { w4 with errno := w3.errno })) ∧
      (e.run P fd buf count offset w).2.errno = if res = -1 then w3.errno else w4.errno := by
  rw [PosEntry.run_eq, wrapPositional_reached P _ _ fd offset buf _ w w1 w2 w3 w4
    origLoc moved res after h1 ho h2 hm h3 h4, if_pos ha]
  by_cases hr : res = -1 <;> simp [hr]

/-- C2, amended, at a concrete input: `_read` returns 10, the restoring seek fails
with `EBADF`, and `pread` returns -1 with `errno = EBADF`. -/
theorem restore_failure_errno_witness :
    pread (scripted scriptRestoreFail) 3 1000 10 5 ScriptOS.init
        = (-1, ⟨Win.EBADF, ⟨3, 0, 0⟩⟩) :=
  (restore_failure_errno (scripted scriptRestoreFail) PosEntry.pread 3 1000 10
      5 ScriptOS.init ⟨0, ⟨1, 0, 0⟩⟩ ⟨0, ⟨2, 0, 0⟩⟩ ⟨0, ⟨2, 0, 0⟩⟩ ⟨Win.EBADF, ⟨3, 0, 0⟩⟩
      105 5 10 (-1) (by decide) (by decide) (by decide) (by decide) (by decide) (by decide)
      (by decide)).1 (by decide)

/-- C7. Blocking translation on the socket path: for a socket-kind descriptor
with a valid socket handle, when `recv` (for `read`) or `send` (for `write`)
returns -1 and `WSAGetLastError()` is `WSAEWOULDBLOCK`, the call returns -1 and
the world on return is the one the native call left with `errno = EAGAIN`;
otherwise the call returns the native result and the world the native call left,
unchanged. -/
theorem socket_blocking_translation (P : Platform ω) (fh : Int) (buf : Ptr) (count : Nat)
    (w w1 w2 wr ws : World ω) (h r s : Int)
    (hk : P.is_fh_socket fh w = (true, w1))
    (hh : P._get_osfhandle fh w1 = (h, w2)) (hv : toSOCKET h ≠ P.INVALID_SOCKET)
    (hr : P.recv fh buf count 0 w2 = (r, wr))
    (hs : P.send fh buf count 0 w2 = (s, ws)) :
    (r = -1 ∧ P.WSAGetLastError wr = P.WSAEWOULDBLOCK →
        read P fh buf count w = (-1, { wr with errno := P.EAGAIN }) ∧
          (read P fh buf count w).2.errno = P.EAGAIN) ∧
      (¬(r = -1 ∧ P.WSAGetLastError wr = P.WSAEWOULDBLOCK) →
        read P fh buf count w = (r, wr)) ∧
      (s = -1 ∧ P.WSAGetLastError ws = P.WSAEWOULDBLOCK →
        write P fh buf count w = (-1, { ws with errno := P.EAGAIN }) ∧
          (write P fh buf count w).2.errno = P.EAGAIN) ∧
      (¬(s = -1 ∧ P.WSAGetLastError ws = P.WSAEWOULDBLOCK) →
        write P fh buf count w = (s, ws)) := by
  have hread : read P fh buf count w =
      if r = -1 ∧ P.WSAGetLastError wr = P.WSAEWOULDBLOCK then
        (r, { wr with errno := P.EAGAIN }) else (r, wr) := by
    simp only [read, hk, hh, hr, if_pos hv]
  have hwrite : write P fh buf count w =
      if s = -1 ∧ P.WSAGetLastError ws = P.WSAEWOULDBLOCK then
        (s, { ws with errno := P.EAGAIN }) else (s, ws) := by
    simp only [write, hk, hh, hs, if_pos hv]
  refine ⟨fun hb => ?_, fun hb => ?_, fun hb => ?_, fun hb => ?_⟩
  · rw [hread, if_pos hb, hb.1]; exact ⟨rfl, rfl⟩
  · rw [hread, if_neg hb]
  · rw [hwrite, if_pos hb, hb.1]; exact ⟨rfl, rfl⟩
  · rw [hwrite, if_neg hb]

/-- C7 at a concrete input: `recv` returns -1 with `WSAEWOULDBLOCK`, and `read`
returns -1 with `errno = EAGAIN`. -/
theorem socket_blocking_translation_witness :
    read (scripted scriptWouldBlock) 4 1000 16 ScriptOS.init
        = (-1, ⟨Win.EAGAIN, ⟨0, 0, Win.WSAEWOULDBLOCK⟩⟩) :=
  ((socket_blocking_translation (scripted scriptWouldBlock) 4 1000 16 ScriptOS.init
      ScriptOS.init ScriptOS.init ⟨0, ⟨0, 0, Win.WSAEWOULDBLOCK⟩⟩
      ⟨0, ⟨0, 0, Win.WSAEWOULDBLOCK⟩⟩ 7 (-1) (-1) (by decide) (by decide) (by decide)
      (by decide) (by decide)).1 (by decide)).1

theorem Logged.start_eq (w : World ω) : Logged.start w = Logged.mk w [] := rfl

theorem Logged.calls_mk (w : World ω) (l : List Call) : Logged.calls (Logged.mk w l) = l :=
  rfl

theorem Logged.calls_mk_errno (w : World ω) (l : List Call) (e : Int) :
    Logged.calls { Logged.mk w l with errno := e } = l := rfl

theorem Logged.lift_mk {α : Type} (c : Call) (op : World ω → α × World ω) (w w1 : World ω)
    (l : List Call) (a : α) (h : op w = (a, w1)) :
    Logged.lift c op (Logged.mk w l) = (a, Logged.mk w1 (l ++ [c])) := by
  have hs : Logged.strip (Logged.mk w l) = w := rfl
  simp only [Logged.lift, hs, h]
  rfl

theorem seek_logged (P : Platform ω) (is64Bit : Bool) (fd offset whence r : Int)
    (w w1 : World ω) (l : List Call) (h : seek P is64Bit fd offset whence w = (r, w1)) :
    seek (logged P) is64Bit fd offset whence (Logged.mk w l)
      = (r, Logged.mk w1 (l ++ [seekCall is64Bit fd offset whence])) := by
  cases is64Bit
  · exact Logged.lift_mk _ _ w w1 l r h
  · exact Logged.lift_mk _ _ w w1 l r h

theorem PosEntry.xfer_logged (P : Platform ω) (e : PosEntry) (fd : Int) (buf : Ptr) (n : Nat)
    (r : Int) (w w1 : World ω) (l : List Call) (h : e.xfer P fd buf n w = (r, w1)) :
    e.xfer (logged P) fd buf n (Logged.mk w l)
      = (r, Logged.mk w1 (l ++ [e.xferCall fd buf n])) := by
  cases e <;> exact Logged.lift_mk _ _ w w1 l r h

theorem readFileTail_calls (P : Platform ω) (fh : Int) (buf : Ptr) (count : Nat)
    (w : World ω) (l : List Call) :
    Logged.calls (readFileTail (logged P) fh buf count (Logged.mk w l)).2
      = l ++ [Call._read fh buf (count % 2 ^ 32)] := by
  rcases hr : P._read fh buf (count % 2 ^ 32) w with ⟨r, w1⟩
  have h := Logged.lift_mk (Call._read fh buf (count % 2 ^ 32)) (P._read fh buf (count % 2 ^ 32))
    w w1 l r hr
  have h2 : (logged P)._read fh buf (count % 2 ^ 32) (Logged.mk w l)
      = (r, Logged.mk w1 (l ++ [Call._read fh buf (count % 2 ^ 32)])) := h
  simp only [readFileTail, h2]
  split <;> rfl

theorem writeFileTail_calls (P : Platform ω) (fh : Int) (buf : Ptr) (count : Nat)
    (w : World ω) (l : List Call) (p : Call → Bool)
    (hp1 : ∀ a, p (Call._get_osfhandle a) = false) (hp2 : ∀ a, p (Call.GetFileType a) = false)
    (hp3 : ∀ a, p (Call.GetNamedPipeHandleState a) = false) :
    (Logged.calls (writeFileTail (logged P) fh buf count (Logged.mk w l)).2).filter p
      = (l ++ [Call._write fh buf (count % 2 ^ 32)]).filter p := by
  rcases hr : P._write fh buf (count % 2 ^ 32) w with ⟨r, w1⟩
  rcases hh : P._get_osfhandle fh w1 with ⟨h, w2⟩
  rcases ht : P.GetFileType h w2 with ⟨ty, w3⟩
  have e1 : (logged P)._write fh buf (count % 2 ^ 32) (Logged.mk w l)
      = (r, Logged.mk w1 (l ++ [Call._write fh buf (count % 2 ^ 32)])) :=
    Logged.lift_mk _ _ w w1 l r hr
  have e2 : ∀ k, (logged P)._get_osfhandle fh (Logged.mk w1 k)
      = (h, Logged.mk w2 (k ++ [Call._get_osfhandle fh])) :=
    fun k => Logged.lift_mk _ _ w1 w2 k h hh
  have e3 : ∀ k, (logged P).GetFileType h (Logged.mk w2 k)
      = (ty, Logged.mk w3 (k ++ [Call.GetFileType h])) :=
    fun k => Logged.lift_mk _ _ w2 w3 k ty ht
  rcases hs : P.GetNamedPipeHandleState h w3 with ⟨_ | st, w4⟩
  · have e4 : ∀ k, (logged P).GetNamedPipeHandleState h (Logged.mk w3 k)
        = (none, Logged.mk w4 (k ++ [Call.GetNamedPipeHandleState h])) :=
      fun k => Logged.lift_mk _ _ w3 w4 k none hs
    simp only [writeFileTail, e1, e2, e3, e4]
    repeat' split
    all_goals
      simp [Logged.calls_mk, Logged.calls_mk_errno, List.filter_append, List.filter_cons,
        hp1, hp2, hp3]
  · have e4 : ∀ k, (logged P).GetNamedPipeHandleState h (Logged.mk w3 k)
        = (some st, Logged.mk w4 (k ++ [Call.GetNamedPipeHandleState h])) :=
      fun k => Logged.lift_mk _ _ w3 w4 k (some st) hs
    simp only [writeFileTail, e1, e2, e3, e4]
    repeat' split
    all_goals
      simp [Logged.calls_mk, Logged.calls_mk_errno, List.filter_append, List.filter_cons,
        hp1, hp2, hp3]

theorem read_calls (P : Platform ω) (fh : Int) (buf : Ptr) (count : Nat) (w w1 w2 : World ω)
    (k : Bool) (h : Int) (hk : P.is_fh_socket fh w = (k, w1))
    (hh : P._get_osfhandle fh w1 = (h, w2)) (p : Call → Bool)
    (hp1 : ∀ a, p (Call.is_fh_socket a) = false)
    (hp2 : ∀ a, p (Call._get_osfhandle a) = false) :
    (Logged.calls (read (logged P) fh buf count (Logged.start w)).2).filter p =
      if k = true ∧ toSOCKET h ≠ P.INVALID_SOCKET then [Call.recv fh buf count 0].filter p
      else [Call._read fh buf (count % 2 ^ 32)].filter p := by
  have e1 : (logged P).is_fh_socket fh (Logged.mk w [])
      = (k, Logged.mk w1 ([] ++ [Call.is_fh_socket fh])) := Logged.lift_mk _ _ w w1 [] k hk
  have e2 : ∀ l, (logged P)._get_osfhandle fh (Logged.mk w1 l)
      = (h, Logged.mk w2 (l ++ [Call._get_osfhandle fh])) :=
    fun l => Logged.lift_mk _ _ w1 w2 l h hh
  rcases hr : P.recv fh buf count 0 w2 with ⟨r, w3⟩
  have e3 : ∀ l, (logged P).recv fh buf count 0 (Logged.mk w2 l)
      = (r, Logged.mk w3 (l ++ [Call.recv fh buf count 0])) :=
    fun l => Logged.lift_mk _ _ w2 w3 l r hr
  have hI : (logged P).INVALID_SOCKET = P.INVALID_SOCKET := rfl
  cases k
  · simp only [read, Logged.start_eq, e1, readFileTail_calls]
    simp [List.filter_cons, hp1]
  · by_cases hv : toSOCKET h = P.INVALID_SOCKET
    · simp only [read, Logged.start_eq, e1, e2, hI, hv, ne_eq, not_true_eq_false, if_false,
        readFileTail_calls]
      simp [List.filter_cons, hp1, hp2]
    · simp only [read, Logged.start_eq, e1, e2, e3, hI, ne_eq, hv, not_false_eq_true, if_true,
        and_self]
      split <;>
        simp [Logged.calls_mk, Logged.calls_mk_errno, List.filter_cons, hp1, hp2]

theorem write_calls (P : Platform ω) (fh : Int) (buf : Ptr) (count : Nat) (w w1 w2 : World ω)
    (k : Bool) (h : Int) (hk : P.is_fh_socket fh w = (k, w1))
    (hh : P._get_osfhandle fh w1 = (h, w2)) (p : Call → Bool)
    (hp1 : ∀ a, p (Call.is_fh_socket a) = false)
    (hp2 : ∀ a, p (Call._get_osfhandle a) = false)
    (hp3 : ∀ a, p (Call.GetFileType a) = false)
    (hp4 : ∀ a, p (Call.GetNamedPipeHandleState a) = false) :
    (Logged.calls (write (logged P) fh buf count (Logged.start w)).2).filter p =
      if k = true ∧ toSOCKET h ≠ P.INVALID_SOCKET then [Call.send fh buf count 0].filter p
      else [Call._write fh buf (count % 2 ^ 32)].filter p := by
  have e1 : (logged P).is_fh_socket fh (Logged.mk w [])
      = (k, Logged.mk w1 ([] ++ [Call.is_fh_socket fh])) := Logged.lift_mk _ _ w w1 [] k hk
  have e2 : ∀ l, (logged P)._get_osfhandle fh (Logged.mk w1 l)
      = (h, Logged.mk w2 (l ++ [Call._get_osfhandle fh])) :=
    fun l => Logged.lift_mk _ _ w1 w2 l h hh
  rcases hr : P.send fh buf count 0 w2 with ⟨r, w3⟩
  have e3 : ∀ l, (logged P).send fh buf count 0 (Logged.mk w2 l)
      = (r, Logged.mk w3 (l ++ [Call.send fh buf count 0])) :=
    fun l => Logged.lift_mk _ _ w2 w3 l r hr
  have hI : (logged P).INVALID_SOCKET = P.INVALID_SOCKET := rfl
  cases k
  · simp only [write, Logged.start_eq, e1, writeFileTail_calls P fh buf count _ _ p hp2 hp3 hp4]
    simp [List.filter_cons, hp1]
  · by_cases hv : toSOCKET h = P.INVALID_SOCKET
    · simp only [write, Logged.start_eq, e1, e2, hI, hv, ne_eq, not_true_eq_false, if_false,
        writeFileTail_calls P fh buf count _ _ p hp2 hp3 hp4]
      simp [List.filter_cons, hp1, hp2]
    · simp only [write, Logged.start_eq, e1, e2, e3, hI, ne_eq, hv, not_false_eq_true, if_true,
        and_self]
      split <;>
        simp [Logged.calls_mk, Logged.calls_mk_errno, List.filter_cons, hp1, hp2]

theorem positional_calls (P : Platform ω) (e : PosEntry) (fd : Int) (buf : Ptr) (count : Nat)
    (offset : Int) (w w1 w2 : World ω) (origLoc moved : Int)
    (h1 : seek P e.is64Bit fd offset P.SEEK_CUR w = (origLoc, w1)) (ho : origLoc ≠ -1)
    (h2 : seek P e.is64Bit fd offset P.SEEK_SET w1 = (moved, w2)) (hm : moved ≠ -1) :
    Logged.calls (e.run (logged P) fd buf count offset (Logged.start w)).2 =
      [seekCall e.is64Bit fd offset P.SEEK_CUR, seekCall e.is64Bit fd offset P.SEEK_SET,
        e.xferCall fd buf (count % 2 ^ 32), seekCall e.is64Bit fd origLoc P.SEEK_SET] := by
  rcases h3 : e.xfer P fd buf (count % 2 ^ 32) w2 with ⟨res, w3⟩
  rcases h4 : seek P e.is64Bit fd origLoc P.SEEK_SET w3 with ⟨after, w4⟩
  rw [PosEntry.run_eq, Logged.start_eq,
    wrapPositional_reached (logged P) e.is64Bit (e.xfer (logged P)) fd offset buf _
      (Logged.mk w []) _ _ _ _ origLoc moved res after
      (seek_logged P _ fd offset _ origLoc w w1 [] h1) ho
      (seek_logged P _ fd offset _ moved w1 w2 _ h2) hm
      (PosEntry.xfer_logged P e fd buf _ res w2 w3 _ h3)
      (seek_logged P _ fd origLoc _ after w3 w4 _ h4)]
  repeat' split
  all_goals rfl

/-- C5, as stated, fails: on the scripted platform the descriptor is socket-kind
and `(SOCKET)_get_osfhandle(fh)` is `INVALID_SOCKET`; `read` and `write` then
invoke the file primitive `_read`/`_write` and never `recv`/`send`. -/
theorem kind_routing_invalid_socket_counterexample :
    (scripted scriptInvalidSocket).is_fh_socket 4 ScriptOS.init = (true, ScriptOS.init) ∧
      toSOCKET ((scripted scriptInvalidSocket)._get_osfhandle 4 ScriptOS.init).1
        = (scripted scriptInvalidSocket).INVALID_SOCKET ∧
      Logged.calls (read (logged (scripted scriptInvalidSocket)) 4 1000 4
          (Logged.start ScriptOS.init)).2
        = [Call.is_fh_socket 4, Call._get_osfhandle 4, Call._read 4 1000 4] ∧
      Logged.calls (write (logged (scripted scriptInvalidSocket)) 4 1000 4
          (Logged.start ScriptOS.init)).2
        = [Call.is_fh_socket 4, Call._get_osfhandle 4, Call._write 4 1000 4] := by
  decide

/-- C5, amended. With every native call recorded: for a socket-kind descriptor
whose handle is not `INVALID_SOCKET`, the only transfer primitive `read` invokes
is `recv(fh, buf, count, 0)` and the only one `write` invokes is
`send(fh, buf, count, 0)`, each once, and `_read`/`_write` never; for a file-kind
descriptor, and for a socket-kind descriptor whose handle is `INVALID_SOCKET`, the
only transfer primitive invoked is `_read` resp. `_write`, once, and `recv`/`send`
never. -/
theorem kind_routing (P : Platform ω) (fh : Int) (buf : Ptr) (count : Nat)
    (w w1 w2 : World ω) (k : Bool) (h : Int)
    (hk : P.is_fh_socket fh w = (k, w1)) (hh : P._get_osfhandle fh w1 = (h, w2)) :
    (k = true ∧ toSOCKET h ≠ P.INVALID_SOCKET →
        (Logged.calls (read (logged P) fh buf count (Logged.start w)).2).filter Call.isXfer
            = [Call.recv fh buf count 0] ∧
          (Logged.calls (write (logged P) fh buf count (Logged.start w)).2).filter Call.isXfer
            = [Call.send fh buf count 0]) ∧
      (k = false →
        (Logged.calls (read (logged P) fh buf count (Logged.start w)).2).filter Call.isXfer
            = [Call._read fh buf (count % 2 ^ 32)] ∧
          (Logged.calls (write (logged P) fh buf count (Logged.start w)).2).filter Call.isXfer
            = [Call._write fh buf (count % 2 ^ 32)]) ∧
      (k = true ∧ toSOCKET h = P.INVALID_SOCKET →
        (Logged.calls (read (logged P) fh buf count (Logged.start w)).2).filter Call.isXfer
            = [Call._read fh buf (count % 2 ^ 32)] ∧
          (Logged.calls (write (logged P) fh buf count (Logged.start w)).2).filter Call.isXfer
            = [Call._write fh buf (count % 2 ^ 32)]) := by
  have hr := read_calls P fh buf count w w1 w2 k h hk hh Call.isXfer (fun _ => rfl)
    (fun _ => rfl)
  have hw := write_calls P fh buf count w w1 w2 k h hk hh Call.isXfer (fun _ => rfl)
    (fun _ => rfl) (fun _ => rfl) (fun _ => rfl)
  refine ⟨fun hs => ?_, fun hf => ?_, fun hi => ?_⟩
  · rw [hr, hw, if_pos hs, if_pos hs]; exact ⟨rfl, rfl⟩
  · have hn : ¬(k = true ∧ toSOCKET h ≠ P.INVALID_SOCKET) := by simp [hf]
    rw [hr, hw, if_neg hn, if_neg hn]; exact ⟨rfl, rfl⟩
  · have hn : ¬(k = true ∧ toSOCKET h ≠ P.INVALID_SOCKET) := by simp [hi.2]
    rw [hr, hw, if_neg hn, if_neg hn]; exact ⟨rfl, rfl⟩

/-- C5, amended, at a concrete input: a socket-kind descriptor with the valid
handle 7; `read` invokes `recv` and `write` invokes `send`, and nothing else
transfers. -/
theorem kind_routing_witness :
    (Logged.calls (read (logged (scripted scriptWouldBlock)) 4 1000 16
        (Logged.start ScriptOS.init)).2).filter Call.isXfer = [Call.recv 4 1000 16 0] ∧
      (Logged.calls (write (logged (scripted scriptWouldBlock)) 4 1000 16
        (Logged.start ScriptOS.init)).2).filter Call.isXfer = [Call.send 4 1000 16 0] :=
  (kind_routing (scripted scriptWouldBlock) 4 1000 16 ScriptOS.init ScriptOS.init
    ScriptOS.init true 7 (by decide) (by decide)).1 ⟨rfl, by decide⟩

/-- On the simulated platform, `pread(d, buf, 10, 0)` on a descriptor positioned at
100 in a file of at least 10 bytes returns 10, leaves `errno`, the descriptor's
file and the socket table as they were, and stores the file's first 10 bytes at
`buf`. -/
theorem sim_pread_zero (os : SimOS) (e0 d : Int) (f : SimFile) (buf : Ptr)
    (hfile : os.files d = some f) (hpos : f.pos = 100) (hlen : 10 ≤ f.data.length) :
    (pread simFS d buf 10 0 ⟨e0, os⟩).1 = 10 ∧
      (pread simFS d buf 10 0 ⟨e0, os⟩).2.errno = e0 ∧
      (pread simFS d buf 10 0 ⟨e0, os⟩).2.os.files d = some f ∧
      (pread simFS d buf 10 0 ⟨e0, os⟩).2.os.sockets = os.sockets ∧
      (∀ i, i < 10 → (pread simFS d buf 10 0 ⟨e0, os⟩).2.os.mem (buf + i) = f.data.getD i 0) := by
  have hmin : (10 : Int) ⊓ (f.data.length : Int) = 10 := by
    apply min_eq_left; exact_mod_cast hlen
  have hminN : 10 ⊓ f.data.length = 10 := min_eq_left hlen
  have hf : f = ⟨100, f.data⟩ := by cases f; simp_all
  simp [pread, wrapPositional, seek, lseek, simFS, simSeek, simRead, SimOS.setFile, hfile,
    Win.SEEK_CUR, Win.SEEK_SET, hpos, hmin, hminN]
  refine ⟨hf.symm, fun i hi => ?_⟩
  simp [hi, List.getElem?_take_of_lt hi]

/-- On the simulated platform, `read(d, buf, 1)` on a file-kind descriptor
positioned at 100 returns 1 and stores the file's byte at offset 100 at `buf` when
the file has one, and returns 0 at the end of the file otherwise. -/
theorem sim_read_one (w : World SimOS) (d : Int) (f : SimFile) (buf : Ptr)
    (hfile : w.os.files d = some f) (hkind : w.os.sockets d = false) (hpos : f.pos = 100) :
    (read simFS d buf 1 w).1 = (if 100 < f.data.length then 1 else 0) ∧
      (100 < f.data.length → (read simFS d buf 1 w).2.os.mem buf = f.data.getD 100 0) := by
  by_cases hl : 100 < f.data.length
  · have h1 : 1 ⊓ (f.data.length - 100) = 1 := min_eq_left (by omega)
    have h2 : (1 : Int) ⊓ ((f.data.length - 100 : Nat) : Int) = 1 :=
      min_eq_left (by omega)
    simp [read, readFileTail, simFS, simRead, SimOS.setFile, hfile, hkind, hpos, hl, h1, h2]
  · have h1 : 1 ⊓ (f.data.length - 100) = 0 := by omega
    have h2 : (1 : Int) ⊓ ((f.data.length - 100 : Nat) : Int) = 0 := by omega
    simp [read, readFileTail, simFS, simRead, SimOS.setFile, hfile, hkind, hpos, hl, h1, h2]

/-- On the simulated platform the position read by a seek of 0 from the current
position is the open file's position. -/
theorem sim_position (w : World SimOS) (d : Int) (f : SimFile)
    (hfile : w.os.files d = some f) (hpos : 0 ≤ f.pos) : position simFS d w = f.pos := by
  simp [position, lseek, simFS, simSeek, hfile, Win.SEEK_CUR, Win.SEEK_SET, not_lt.mpr hpos]

/-- C8. End-to-end scenario on the simulated platform: for a file-kind descriptor
`d` on a file of at least 10 bytes, positioned at 100, `pread(d, buf, 10, 0)`
returns 10, stores the file's bytes at offsets 0..9 at `buf`, and leaves `errno`,
the file and the position (100, as a seek of 0 from the current position reports
it) as they were; a following `read(d, buf2, 1)` transfers the byte at offset 100
(or returns 0 when the file ends before it). -/
theorem end_to_end_scenario (os : SimOS) (e0 d : Int) (f : SimFile) (buf buf2 : Ptr)
    (hfile : os.files d = some f) (hkind : os.sockets d = false) (hpos : f.pos = 100)
    (hlen : 10 ≤ f.data.length) :
    ∃ W : World SimOS, pread simFS d buf 10 0 ⟨e0, os⟩ = (10, W) ∧
      (∀ i, i < 10 → W.os.mem (buf + i) = f.data.getD i 0) ∧
      W.errno = e0 ∧ W.os.files d = some f ∧
      position simFS d W = 100 ∧
      (read simFS d buf2 1 W).1 = (if 100 < f.data.length then 1 else 0) ∧
      (100 < f.data.length → (read simFS d buf2 1 W).2.os.mem buf2 = f.data.getD 100 0) := by
  obtain ⟨h1, h2, h3, h4, h5⟩ := sim_pread_zero os e0 d f buf hfile hpos hlen
  have hk : (pread simFS d buf 10 0 ⟨e0, os⟩).2.os.sockets d = false := by rw [h4]; exact hkind
  obtain ⟨h6, h7⟩ := sim_read_one (pread simFS d buf 10 0 ⟨e0, os⟩).2 d f buf2 h3 hk hpos
  refine ⟨(pread simFS d buf 10 0 ⟨e0, os⟩).2, Prod.ext h1 rfl, h5, h2, h3, ?_, h6, h7⟩
  rw [sim_position _ d f h3 (by omega), hpos]

/-- C8 at a concrete input: descriptor 3 of `simWorld`, positioned at 100 in the
128-byte file `0, 1, ..., 127`. -/
theorem end_to_end_scenario_witness :
    ∃ W : World SimOS, pread simFS 3 1000 10 0 simWorld = (10, W) ∧
      (∀ i, i < 10 → W.os.mem (1000 + i) = (List.range 128).getD i 0) ∧
      W.errno = 0 ∧ W.os.files 3 = some ⟨100, List.range 128⟩ ∧
      position simFS 3 W = 100 ∧
      (read simFS 3 2000 1 W).1 = (if 100 < (List.range 128).length then 1 else 0) ∧
      (100 < (List.range 128).length →
        (read simFS 3 2000 1 W).2.os.mem 2000 = (List.range 128).getD 100 0) :=
  end_to_end_scenario simWorld.os 0 3 ⟨100, List.range 128⟩ 1000 2000 (by decide) (by decide)
    rfl (by simp)

/-- C1 evaluated at a failing input: on the simulated platform, descriptor 3 is
positioned at 100; each of `pread`, `pread64` and `pwrite` with count 10 and
offset 5 succeeds (returns 10), and the position read afterwards by a seek of 0
from the current position is 105, not 100. -/
theorem position_not_restored_after_success :
    position simFS 3 simWorld = 100 ∧
      (pread simFS 3 1000 10 5 simWorld).1 = 10 ∧
      position simFS 3 (pread simFS 3 1000 10 5 simWorld).2 = 105 ∧
      (pread64 simFS 3 1000 10 5 simWorld).1 = 10 ∧
      position simFS 3 (pread64 simFS 3 1000 10 5 simWorld).2 = 105 ∧
      (pwrite simFS 3 1000 10 5 simWorld).1 = 10 ∧
      position simFS 3 (pwrite simFS 3 1000 10 5 simWorld).2 = 105 := by
  decide

/-- C9 evaluated at a failing input: on the simulated platform, descriptor 3 is
positioned at 100; `pread`, `pread64` and `pwrite` with offset -5 return -1 with
`errno = EINVAL` because the absolute seek rejects the negative offset (a seek
that fails in the simulation leaves the position alone), and the position read
afterwards is 95, not 100. -/
theorem position_not_restored_after_failure :
    position simFS 3 simWorld = 100 ∧
      (seek simFS false 3 (-5) Win.SEEK_SET simWorld).1 = -1 ∧
      position simFS 3 (seek simFS false 3 (-5) Win.SEEK_SET simWorld).2 = 100 ∧
      (pread simFS 3 1000 10 (-5) simWorld).1 = -1 ∧
      (pread simFS 3 1000 10 (-5) simWorld).2.errno = Win.EINVAL ∧
      position simFS 3 (pread simFS 3 1000 10 (-5) simWorld).2 = 95 ∧
      (pread64 simFS 3 1000 10 (-5) simWorld).1 = -1 ∧
      position simFS 3 (pread64 simFS 3 1000 10 (-5) simWorld).2 = 95 ∧
      (pwrite simFS 3 1000 10 (-5) simWorld).1 = -1 ∧
      position simFS 3 (pwrite simFS 3 1000 10 (-5) simWorld).2 = 95 := by
  decide

/-! ### Further properties of the positional entry points -/

/-- With every native call recorded, a positional call whose two first seeks
succeed makes exactly four native calls: a seek by `offset` from the current
position, a seek to `offset` from the start, the transfer, and a seek from the
start to the value the first seek returned. -/
theorem positional_call_sequence (P : Platform ω) (e : PosEntry) (fd : Int) (buf : Ptr)
    (count : Nat) (offset : Int) (w w1 w2 : World ω) (origLoc moved : Int)
    (h1 : seek P e.is64Bit fd offset P.SEEK_CUR w = (origLoc, w1)) (ho : origLoc ≠ -1)
    (h2 : seek P e.is64Bit fd offset P.SEEK_SET w1 = (moved, w2)) (hm : moved ≠ -1) :
    Logged.calls (e.run (logged P) fd buf count offset (Logged.start w)).2 =
      [seekCall e.is64Bit fd offset P.SEEK_CUR, seekCall e.is64Bit fd offset P.SEEK_SET,
        e.xferCall fd buf (count % 2 ^ 32), seekCall e.is64Bit fd origLoc P.SEEK_SET] :=
  positional_calls P e fd buf count offset w w1 w2 origLoc moved h1 ho h2 hm

/-- The call sequence of `pread64(3, buf, 10, 5)` on the scripted platform. -/
theorem positional_call_sequence_witness :
    Logged.calls (pread64 (logged (scripted scriptAllSucceed)) 3 1000 10 5
        (Logged.start ScriptOS.init)).2 =
      [Call._lseeki64 3 5 1, Call._lseeki64 3 5 0, Call._read 3 1000 10,
        Call._lseeki64 3 105 0] :=
  positional_call_sequence (scripted scriptAllSucceed) PosEntry.pread64 3 1000 10 5
    ScriptOS.init ⟨0, ⟨1, 0, 0⟩⟩ ⟨0, ⟨2, 0, 0⟩⟩ 105 5 (by decide) (by decide) (by decide)
    (by decide)

/-- On the simulated platform, whenever `pread`, `pread64` or `pwrite` on an open
descriptor positioned at `p` returns something other than -1, the position read
afterwards is `p + offset`. -/
theorem sim_position_after_success (e : PosEntry) (d : Int) (buf : Ptr) (count : Nat) (o : Int)
    (w : World SimOS) (f : SimFile) (hfile : w.os.files d = some f)
    (hok : (e.run simFS d buf count o w).1 ≠ -1) :
    position simFS d (e.run simFS d buf count o w).2 = f.pos + o := by
  by_cases h1 : 0 ≤ f.pos + o
  · by_cases h2 : 0 ≤ o
    · have n1 : f.pos + o ≠ -1 := by omega
      have n2 : o ≠ -1 := by omega
      cases e <;>
        simp [PosEntry.run, pread, pread64, pwrite, wrapPositional, seek, lseek, lseek64, simFS,
          simSeek, simRead, simWrite, SimOS.setFile, hfile, Win.SEEK_CUR, Win.SEEK_SET,
          not_lt.mpr h1, not_lt.mpr h2, n1, n2, position]
    · exfalso; apply hok
      have n1 : f.pos + o ≠ -1 := by omega
      cases e <;>
        simp [PosEntry.run, pread, pread64, pwrite, wrapPositional, seek, lseek, lseek64, simFS,
          simSeek, simRead, simWrite, SimOS.setFile, hfile, Win.SEEK_CUR, Win.SEEK_SET,
          not_lt.mpr h1, not_le.mp h2, n1]
  · exfalso; apply hok
    cases e <;>
      simp [PosEntry.run, pread, pread64, pwrite, wrapPositional, seek, lseek, lseek64, simFS,
        simSeek, simRead, simWrite, SimOS.setFile, hfile, Win.SEEK_CUR, Win.SEEK_SET,
        not_le.mp h1]

/-- `pwrite(3, buf, 10, 7)` from position 100 in `simWorld` leaves the position at
107. -/
theorem sim_position_after_success_witness :
    position simFS 3 (pwrite simFS 3 1000 10 7 simWorld).2 = 100 + 7 :=
  sim_position_after_success PosEntry.pwrite 3 1000 10 7 simWorld ⟨100, List.range 128⟩
    (by decide) (by decide)

/-- On the simulated platform, `pread`, `pread64` and `pwrite` on an open
descriptor positioned at `p` with a negative offset of at most `p` in magnitude
return -1 and leave the position at `p + offset`. -/
theorem sim_position_after_rejected_offset (e : PosEntry) (d : Int) (buf : Ptr) (count : Nat)
    (o : Int) (w : World SimOS) (f : SimFile) (hfile : w.os.files d = some f)
    (h1 : 0 ≤ f.pos + o) (h2 : o < 0) :
    (e.run simFS d buf count o w).1 = -1 ∧
      position simFS d (e.run simFS d buf count o w).2 = f.pos + o := by
  have n1 : f.pos + o ≠ -1 := by omega
  cases e <;>
    simp [PosEntry.run, pread, pread64, pwrite, wrapPositional, seek, lseek, lseek64, simFS,
      simSeek, simRead, simWrite, SimOS.setFile, hfile, Win.SEEK_CUR, Win.SEEK_SET,
      not_lt.mpr h1, h2, n1, position]

/-- `pread64(3, buf, 10, -1)` from position 100 in `simWorld` fails and leaves the
position at 99. -/
theorem sim_position_after_rejected_offset_witness :
    (pread64 simFS 3 1000 10 (-1) simWorld).1 = -1 ∧
      position simFS 3 (pread64 simFS 3 1000 10 (-1) simWorld).2 = 100 + -1 :=
  sim_position_after_rejected_offset PosEntry.pread64 3 1000 10 (-1) simWorld
    ⟨100, List.range 128⟩ (by decide) (by decide) (by decide)

end Unistd
